import Mathlib

/-!
Verification of the VibeCut OpenCV frame scanner
(`scripts/vibecut_frame_scanner.py`).

The scanner samples a sparse subset of video frames by a fixed stride and
aggregates per-frame orientation, face-centering and motion statistics into a
bounded signal report.  Python floats are embedded as exact rationals (`ℚ`);
the external decode / face-detection / pixel-difference capabilities are
modelled as injected functions, exactly as §6 of the design document treats
them ("interchangeable implementations").  Comparisons against the motion
threshold `mean + 0.75*std` (whose `std` is a square root) are embedded by
comparing squares, which is equivalent over the reals and exact over `ℚ`; a
justification lemma relating the encoding to `Real.sqrt` is proved below.
-/

namespace FrameScanner

/-- The scanner's `clamp(value, low, high)`: `max(low, min(high, value))`. -/
def clamp (value low high : ℚ) : ℚ := max low (min high value)

/-- The JSON payload assembled by the scanner, with its exact field names. -/
structure ScanResult where
  sampledFrames : ℕ
  sampleStride : ℕ
  portraitSignal : ℚ
  landscapeSignal : ℚ
  centeredFaceVerticalSignal : ℚ
  horizontalMotionSignal : ℚ
  highMotionShortClipSignal : ℚ
  motionPeaks : List ℚ
deriving DecidableEq

/-- The scanner's `fallback_payload()`. -/
def fallback_payload : ScanResult :=
  { sampledFrames := 0
    sampleStride := 0
    portraitSignal := 1/2
    landscapeSignal := 1/2
    centeredFaceVerticalSignal := 0
    horizontalMotionSignal := 0
    highMotionShortClipSignal := 0
    motionPeaks := [] }

/-- Python's `round` to an integer (banker's rounding: ties go to the even
integer), on exact rationals. -/
def roundHalfEven (x : ℚ) : ℤ :=
  if x - ⌊x⌋ < 1/2 then ⌊x⌋
  else if 1/2 < x - ⌊x⌋ then ⌊x⌋ + 1
  else if ⌊x⌋ % 2 = 0 then ⌊x⌋ else ⌊x⌋ + 1

/-- Python's `round(x, n)` where `m = 10^n` (`m = 100` for 2 decimals,
`m = 10000` for 4 decimals). -/
def roundTo (m : ℕ) (x : ℚ) : ℚ := (roundHalfEven (m * x) : ℚ) / m

lemma roundHalfEven_ge_floor (x : ℚ) : ⌊x⌋ ≤ roundHalfEven x := by
  unfold roundHalfEven
  split
  · exact le_refl _
  · split
    · omega
    · split <;> omega

lemma roundHalfEven_le_floor_add_one (x : ℚ) : roundHalfEven x ≤ ⌊x⌋ + 1 := by
  unfold roundHalfEven
  split
  · omega
  · split
    · omega
    · split <;> omega

lemma roundHalfEven_le_ceil (x : ℚ) : roundHalfEven x ≤ ⌈x⌉ := by
  unfold roundHalfEven
  split
  · exact Int.floor_le_ceil x
  · have hx : (⌊x⌋ : ℚ) < x := by
      by_contra hcon
      push_neg at hcon
      have := Int.floor_le x
      have : x - ⌊x⌋ ≤ 0 := by linarith
      linarith [show (0:ℚ) < 1/2 by norm_num]
    have h1 : ⌊x⌋ + 1 ≤ ⌈x⌉ := by
      have : ⌊x⌋ < ⌈x⌉ := by
        have := Int.lt_ceil.mpr hx
        exact this
      omega
    split
    · exact h1
    · split
      · exact le_trans (by omega) h1
      · exact h1

lemma roundHalfEven_le_half (x : ℚ) : (roundHalfEven x : ℚ) ≤ x + 1/2 := by
  unfold roundHalfEven
  split
  · have := Int.floor_le x
    linarith
  · rename_i h1
    push_neg at h1
    split
    · push_cast
      linarith
    · split <;> · push_cast; linarith

lemma roundHalfEven_ge_half (x : ℚ) : x - 1/2 ≤ (roundHalfEven x : ℚ) := by
  unfold roundHalfEven
  split
  · rename_i h1
    linarith
  · rename_i h1
    push_neg at h1
    have hlt : x < ⌊x⌋ + 1 := Int.lt_floor_add_one x
    split
    · push_cast
      linarith
    · split
      · linarith
      · push_cast
        linarith

lemma roundHalfEven_add_even (x : ℚ) (n : ℤ) (hn : n % 2 = 0) :
    roundHalfEven (x + n) = roundHalfEven x + n := by
  unfold roundHalfEven
  rw [Int.floor_add_int]
  have hfr : x + (n : ℚ) - ((⌊x⌋ + n : ℤ) : ℚ) = x - ⌊x⌋ := by
    push_cast
    ring
  rw [hfr]
  have hpar : (⌊x⌋ + n) % 2 = ⌊x⌋ % 2 := by omega
  split
  · omega
  · split
    · omega
    · rw [hpar]
      split <;> omega

/-- Rounding to a multiple of `1/100` cannot bring two timestamps that are at
least `4.5` apart to closer than `4.5`: exact shift for a gap of exactly
`4.5` (since `450` is even, ties round the same way), integer gap otherwise. -/
lemma roundTo_hundred_gap (x y : ℚ) (h : 9/2 ≤ y - x) :
    9/2 ≤ roundTo 100 y - roundTo 100 x := by
  have key : roundHalfEven ((100:ℕ) * x) + 450 ≤ roundHalfEven ((100:ℕ) * y) := by
    rcases eq_or_lt_of_le h with heq | hlt
    · have hy : (100:ℕ) * y = (100:ℕ) * x + ((450 : ℤ) : ℚ) := by
        push_cast
        linarith
      rw [hy, roundHalfEven_add_even _ 450 (by norm_num)]
    · have h1 : ((100:ℕ) : ℚ) * y - 1/2 ≤ (roundHalfEven ((100:ℕ) * y) : ℚ) :=
        roundHalfEven_ge_half _
      have h2 : (roundHalfEven ((100:ℕ) * x) : ℚ) ≤ ((100:ℕ) : ℚ) * x + 1/2 :=
        roundHalfEven_le_half _
      have h3 : (449 : ℚ) <
          (roundHalfEven ((100:ℕ) * y) : ℚ) - (roundHalfEven ((100:ℕ) * x) : ℚ) := by
        push_cast at h1 h2 ⊢
        nlinarith
      have h4 : (449 : ℤ) < roundHalfEven ((100:ℕ) * y) - roundHalfEven ((100:ℕ) * x) := by
        exact_mod_cast h3
      omega
  have keyQ : (roundHalfEven ((100:ℕ) * x) : ℚ) + 450 ≤ (roundHalfEven ((100:ℕ) * y) : ℚ) := by
    exact_mod_cast key
  unfold roundTo
  rw [div_sub_div_same, le_div_iff₀ (by norm_num : (0:ℚ) < ((100:ℕ) : ℚ))]
  push_cast
  push_cast at keyQ
  linarith

/-- Rounding preserves pairwise 4.5-separation (absolute-value form). -/
lemma roundTo_hundred_gap_abs (x y : ℚ) (h : 9/2 ≤ |x - y|) :
    9/2 ≤ |roundTo 100 x - roundTo 100 y| := by
  rcases le_or_lt x y with hxy | hxy
  · have : 9/2 ≤ y - x := by
      rw [abs_sub_comm, abs_of_nonneg (by linarith)] at h
      exact h
    have hg := roundTo_hundred_gap x y this
    rw [abs_sub_comm, abs_of_nonneg (by linarith)]
    exact hg
  · have : 9/2 ≤ x - y := by
      rw [abs_of_nonneg (by linarith)] at h
      exact h
    have hg := roundTo_hundred_gap y x this
    rw [abs_of_nonneg (by linarith)]
    exact hg

/-- Rounding to `m` decimal ticks maps `[0,1]` into `[0,1]`. -/
lemma roundTo_unit (m : ℕ) (hm : 0 < m) (x : ℚ) (h0 : 0 ≤ x) (h1 : x ≤ 1) :
    0 ≤ roundTo m x ∧ roundTo m x ≤ 1 := by
  have hmq : (0 : ℚ) < (m : ℚ) := by exact_mod_cast hm
  have hlow : (0 : ℤ) ≤ roundHalfEven ((m:ℕ) * x) := by
    have hf : (0 : ℤ) ≤ ⌊((m:ℕ) : ℚ) * x⌋ := Int.floor_nonneg.mpr (by positivity)
    exact le_trans hf (roundHalfEven_ge_floor _)
  have hhigh : roundHalfEven ((m:ℕ) * x) ≤ (m : ℤ) := by
    have hc : ⌈((m:ℕ) : ℚ) * x⌉ ≤ (m : ℤ) := by
      apply Int.ceil_le.mpr
      push_cast
      nlinarith
    exact le_trans (roundHalfEven_le_ceil _) hc
  unfold roundTo
  constructor
  · apply div_nonneg _ (le_of_lt hmq)
    exact_mod_cast hlow
  · rw [div_le_one hmq]
    exact_mod_cast hhigh

lemma clamp_unit_mem (x : ℚ) : 0 ≤ clamp x 0 1 ∧ clamp x 0 1 ≤ 1 := by
  unfold clamp
  constructor
  · exact le_max_left 0 _
  · apply max_le (by norm_num)
    exact min_le_left 1 x

variable {Gray : Type}

/-- One successfully decoded frame, described by the outputs of the external
capabilities the scanner consumes: the grayscale shape `(h, w)`, the five
edge-density region means (`mean(edges[region])/255`, lines 98-107), the face
rectangles returned by the detector, and the grayscale buffer retained for
motion diffing.  The buffer type `Gray` is abstract; the two pixel-difference
means (`diff.mean()/255` and the horizontal-band mean) are injected as
functions of consecutive buffers. -/
structure DecodedFrame (Gray : Type) where
  w : ℕ
  h : ℕ
  left_density : ℚ
  right_density : ℚ
  top_density : ℚ
  bottom_density : ℚ
  center_density : ℚ
  faces : List (ℚ × ℚ × ℚ × ℚ)
  gray : Gray

/-- Lines 113-121: fraction of detected faces whose centre lies in the safe
zone `x∈[0.28w,0.72w]`, `y∈[0.18h,0.8h]`; `0.0` when no face is detected. -/
def centered_face_score (w h : ℕ) (faces : List (ℚ × ℚ × ℚ × ℚ)) : ℚ :=
  if 0 < faces.length then
    clamp
      (((faces.filter (fun f =>
          decide (28/100 * (w:ℚ) ≤ f.1 + f.2.2.1 / 2 ∧ f.1 + f.2.2.1 / 2 ≤ 72/100 * (w:ℚ) ∧
            18/100 * (h:ℚ) ≤ f.2.1 + f.2.2.2 / 2 ∧
            f.2.1 + f.2.2.2 / 2 ≤ 80/100 * (h:ℚ)))).length : ℚ)
        / ((max 1 faces.length : ℕ) : ℚ)) 0 1
  else 0

/-- Line 109: `1.0 if h >= w else 0.0`. -/
def portrait_bias (f : DecodedFrame Gray) : ℚ := if f.w ≤ f.h then 1 else 0

/-- Line 110: `1.0 if w > h else 0.0`. -/
def landscape_bias (f : DecodedFrame Gray) : ℚ := if f.h < f.w then 1 else 0

/-- Lines 123-128. -/
def portrait_score (f : DecodedFrame Gray) (centered_face : ℚ) : ℚ :=
  38/100 * portrait_bias f + 26/100 * f.center_density + 22/100 * centered_face
    + 14/100 * ((f.top_density + f.bottom_density) * (1/2))

/-- Lines 129-134. -/
def landscape_score (f : DecodedFrame Gray) (centered_face : ℚ) : ℚ :=
  42/100 * landscape_bias f + 27/100 * ((f.left_density + f.right_density) * (1/2))
    + 18/100 * |f.left_density - f.right_density| + 13/100 * (1 - centered_face)

/-- The scan-loop accumulators (lines 71-81). -/
structure ScanState (Gray : Type) where
  sampled_frames : ℕ
  portrait_score_total : ℚ
  landscape_score_total : ℚ
  centered_face_total : ℚ
  horizontal_motion_total : ℚ
  motion_values : List ℚ
  motion_timestamps : List ℚ
  prev_gray : Option Gray

/-- The accumulators before the first iteration. -/
def initState : ScanState Gray :=
  { sampled_frames := 0
    portrait_score_total := 0
    landscape_score_total := 0
    centered_face_total := 0
    horizontal_motion_total := 0
    motion_values := []
    motion_timestamps := []
    prev_gray := none }

/-- Loop body for one successfully decoded frame (lines 90-151). -/
def stepFrame (diffMean bandDiffMean : Gray → Gray → ℚ) (fps : ℚ)
    (frame_index : ℕ) (f : DecodedFrame Gray) (st : ScanState Gray) : ScanState Gray :=
  let centered_face := centered_face_score f.w f.h f.faces
  let motion_value : ℚ :=
    match st.prev_gray with
    | some pg => diffMean pg f.gray
    | none => 0
  let horizontal_motion : ℚ :=
    match st.prev_gray with
    | some pg => bandDiffMean pg f.gray
    | none => 0
  { sampled_frames := st.sampled_frames + 1
    portrait_score_total := st.portrait_score_total + portrait_score f centered_face
    landscape_score_total := st.landscape_score_total + landscape_score f centered_face
    centered_face_total := st.centered_face_total + centered_face
    horizontal_motion_total := st.horizontal_motion_total + horizontal_motion
    motion_values := st.motion_values ++ [motion_value]
    motion_timestamps := st.motion_timestamps ++ [(frame_index : ℚ) / max 1 fps]
    prev_gray := some f.gray }

/-- The scan loop (lines 83-151), with the fuel counting the remaining loop
iterations.  The Python `while frame_index < total_frames` loop advances
`frame_index` by `sample_stride ≥ 1` every iteration, so it performs at most
`total_frames` iterations; running with fuel `total_frames` therefore executes
the loop to completion, and smaller fuel values observe the state after a
prefix of the iterations. -/
def scanFrames (diffMean bandDiffMean : Gray → Gray → ℚ)
    (decoder : ℕ → Option (DecodedFrame Gray))
    (total_frames sample_stride : ℕ) (fps : ℚ) :
    ℕ → ℕ → ScanState Gray → ScanState Gray
  | 0, _, st => st
  | fuel + 1, frame_index, st =>
    if frame_index < total_frames then
      match decoder frame_index with
      | none =>
          scanFrames diffMean bandDiffMean decoder total_frames sample_stride fps
            fuel (frame_index + sample_stride) st
      | some frame =>
          scanFrames diffMean bandDiffMean decoder total_frames sample_stride fps
            fuel (frame_index + sample_stride)
            (stepFrame diffMean bandDiffMean fps frame_index frame st)
    else st

/-- The frame indices positioned by `cap.set` during the loop: both the decode
failure branch and the success branch advance the index by the stride, so the
visited indices do not depend on the decoder. -/
def visitedIndices (total_frames sample_stride : ℕ) : ℕ → ℕ → List ℕ
  | 0, _ => []
  | fuel + 1, frame_index =>
    if frame_index < total_frames then
      frame_index :: visitedIndices total_frames sample_stride fuel (frame_index + sample_stride)
    else []

/-- The visited frame indices at which `cap.read` succeeded (those that enter
the body at line 90 and get a motion value and timestamp appended). -/
def decodedIndices (decoder : ℕ → Option (DecodedFrame Gray))
    (total_frames sample_stride : ℕ) : ℕ → ℕ → List ℕ
  | 0, _ => []
  | fuel + 1, frame_index =>
    if frame_index < total_frames then
      match decoder frame_index with
      | none => decodedIndices decoder total_frames sample_stride fuel (frame_index + sample_stride)
      | some _ =>
          frame_index ::
            decodedIndices decoder total_frames sample_stride fuel (frame_index + sample_stride)
    else []

/-- The `numpy` mean of a list of values. -/
def listMean (xs : List ℚ) : ℚ := xs.sum / xs.length

/-- The `numpy` population variance, `std²`: the motion threshold comparisons are
embedded through the variance (see `gtThreshold`). -/
def listVar (xs : List ℚ) : ℚ := listMean (xs.map (fun v => (v - listMean xs) ^ 2))

/-- Line 159: `np.array(motion_values)` if non-empty, else `np.zeros((1,))`. -/
def motionArrayOf (vs : List ℚ) : List ℚ := if vs.isEmpty then [0] else vs

/-- Line 163's `value > mean + 0.75*std`, encoded exactly over `ℚ` by squaring:
for `std = √variance ≥ 0`, `v - mean > 0.75*std` iff `0 ≤ v - mean` and
`(v - mean)² > 0.5625 * variance`.  `gtThreshold_iff_sqrt` below proves the
equivalence with the literal square-root form. -/
def gtThreshold (v mean variance : ℚ) : Bool :=
  decide (0 ≤ v - mean ∧ 9/16 * variance < (v - mean) ^ 2)

/-- Line 168's `value >= mean + 0.75*std`, squared encoding as `gtThreshold`. -/
def geThreshold (v mean variance : ℚ) : Bool :=
  decide (0 ≤ v - mean ∧ 9/16 * variance ≤ (v - mean) ^ 2)

/-- Line 165-169: the `(timestamp, value)` pairs with `value >= threshold`,
in temporal order (`enumerate` pairs `motion_timestamps[idx]` with `value`). -/
def peakCandidates (timestamps values : List ℚ) (mean variance : ℚ) : List (ℚ × ℚ) :=
  (timestamps.zip values).filter (fun p => geThreshold p.2 mean variance)

/-- Stable insertion into a list sorted by value descending: walk past entries
with strictly larger value, so earlier candidates precede later equal-valued
ones, exactly as Python's stable `sort(key=value, reverse=True)`. -/
def insertByValueDesc (p : ℚ × ℚ) : List (ℚ × ℚ) → List (ℚ × ℚ)
  | [] => [p]
  | q :: rest => if p.2 < q.2 then q :: insertByValueDesc p rest else p :: q :: rest

/-- Line 170: stable sort of the candidates by value, descending. -/
def sortByValueDesc : List (ℚ × ℚ) → List (ℚ × ℚ)
  | [] => []
  | p :: rest => insertByValueDesc p (sortByValueDesc rest)

/-- Lines 172-178: greedy temporal de-duplication; accept a timestamp unless
it is within 4.5 seconds of an accepted one, stop at 6 accepted. -/
def dedupPeaks : List (ℚ × ℚ) → List ℚ → List ℚ
  | [], acc => acc
  | p :: rest, acc =>
    if acc.any (fun e => decide (|p.1 - e| < 9/2)) then dedupPeaks rest acc
    else if 6 ≤ (acc ++ [p.1]).length then acc ++ [p.1]
    else dedupPeaks rest (acc ++ [p.1])

/-- Lines 159-195: the post-pass over the collected motion series and the
normalization of the accumulated sums into the final payload. -/
def buildResult (sample_stride : ℕ) (st : ScanState Gray) : ScanResult :=
  let motion_array := motionArrayOf st.motion_values
  let motion_mean := listMean motion_array
  let motion_var := listVar motion_array
  let high_motion_frac : ℚ :=
    if 0 < motion_array.length then
      ((motion_array.countP (fun v => gtThreshold v motion_mean motion_var)) : ℚ)
        / (motion_array.length : ℚ)
    else 0
  let peak_pairs :=
    sortByValueDesc (peakCandidates st.motion_timestamps st.motion_values motion_mean motion_var)
  let unique_peaks := dedupPeaks peak_pairs []
  { sampledFrames := st.sampled_frames
    sampleStride := sample_stride
    portraitSignal :=
      roundTo 10000 (clamp (st.portrait_score_total / (st.sampled_frames : ℚ)) 0 1)
    landscapeSignal :=
      roundTo 10000 (clamp (st.landscape_score_total / (st.sampled_frames : ℚ)) 0 1)
    centeredFaceVerticalSignal :=
      roundTo 10000 (clamp (st.centered_face_total / (st.sampled_frames : ℚ)) 0 1)
    horizontalMotionSignal :=
      roundTo 10000 (clamp
        (st.horizontal_motion_total / ((max 1 (st.sampled_frames - 1) : ℕ) : ℚ)) 0 1)
    highMotionShortClipSignal :=
      roundTo 10000 (clamp (high_motion_frac * (135/100)) 0 1)
    motionPeaks := unique_peaks.map (roundTo 100) }

/-- Everything the engine observes from the outside world in one invocation:
the filesystem check, import availability, the capture-open result, the four
metadata reads of lines 55-58 (integer-converted; `fpsUsed` below applies
line 56's `or 30.0` default for a zero fps), the `--sample-ratio` argument,
and the injected decode / pixel-difference capabilities. -/
structure Env (Gray : Type) where
  path_exists : Bool
  imports_ok : Bool
  cap_opened : Bool
  total_frames_raw : ℤ
  fps_raw : ℚ
  width : ℤ
  height : ℤ
  sample_ratio_arg : ℚ
  decoder : ℕ → Option (DecodedFrame Gray)
  diffMean : Gray → Gray → ℚ
  bandDiffMean : Gray → Gray → ℚ

/-- Line 56: `float(cap.get(cv2.CAP_PROP_FPS) or 30.0)` — a falsy (zero) fps
is replaced by 30. -/
def fpsUsed (env : Env Gray) : ℚ := if env.fps_raw = 0 then 30 else env.fps_raw

/-- Line 65: `clamp(float(args.sample_ratio or 0.1), 0.01, 0.5)` — a falsy
(zero) ratio is replaced by the default 0.1 before clamping. -/
def ratioUsed (r : ℚ) : ℚ := clamp (if r = 0 then 1/10 else r) (1/100) (1/2)

/-- The totalFrames value as a natural number (positive on the normal path). -/
def total_frames_nat (env : Env Gray) : ℕ := env.total_frames_raw.toNat

/-- Line 66: `max(1, int(total_frames * sample_ratio))`; the product is
positive, so Python's truncating `int` is the floor. -/
def sample_count_of (total : ℕ) (r : ℚ) : ℕ :=
  max 1 (⌊(total : ℚ) * ratioUsed r⌋).toNat

/-- Line 67: `max(1, total_frames // sample_count)`. -/
def sample_stride_of (total : ℕ) (r : ℚ) : ℕ :=
  max 1 (total / sample_count_of total r)

/-- The loop state after at most `fuel` iterations of the scan loop. -/
def scanStateFuel (env : Env Gray) (fuel : ℕ) : ScanState Gray :=
  scanFrames env.diffMean env.bandDiffMean env.decoder (total_frames_nat env)
    (sample_stride_of (total_frames_nat env) env.sample_ratio_arg) (fpsUsed env)
    fuel 0 initState

/-- The loop state after the full pass (fuel `total_frames` suffices, see
`scanFrames`). -/
def scanStateOf (env : Env Gray) : ScanState Gray :=
  scanStateFuel env (total_frames_nat env)

/-- The scanner's `main()` (lines 32-198): the exit code and the printed payload. -/
def main (env : Env Gray) : ℕ × ScanResult :=
  if env.path_exists = false then (0, fallback_payload)
  else if env.imports_ok = false then (0, fallback_payload)
  else if env.cap_opened = false then (0, fallback_payload)
  else if env.total_frames_raw ≤ 0 ∨ env.width ≤ 0 ∨ env.height ≤ 0 then (0, fallback_payload)
  else if (scanStateOf env).sampled_frames = 0 then (0, fallback_payload)
  else
    (0, buildResult (sample_stride_of (total_frames_nat env) env.sample_ratio_arg)
      (scanStateOf env))

/-- The squared encoding `gtThreshold` agrees with the literal comparison
`value > mean + 0.75 * sqrt variance` over the reals. -/
lemma gtThreshold_iff_sqrt (v mean variance : ℚ) (h : 0 ≤ variance) :
    gtThreshold v mean variance = true ↔
      (mean : ℝ) + 3/4 * Real.sqrt (variance : ℚ) < (v : ℝ) := by
  have hvr : (0 : ℝ) ≤ (variance : ℚ) := by exact_mod_cast h
  have hs : Real.sqrt (variance : ℚ) ^ 2 = (variance : ℚ) := Real.sq_sqrt hvr
  have hs0 : (0 : ℝ) ≤ Real.sqrt (variance : ℚ) := Real.sqrt_nonneg _
  unfold gtThreshold
  rw [decide_eq_true_eq]
  constructor
  · rintro ⟨h1, h2⟩
    have h1r : (0 : ℝ) ≤ (v : ℝ) - (mean : ℝ) := by exact_mod_cast h1
    have h2r : ((9/16 * variance : ℚ) : ℝ) < (((v - mean) ^ 2 : ℚ) : ℝ) := by
      exact_mod_cast h2
    push_cast at h2r
    nlinarith [sq_nonneg ((v : ℝ) - (mean : ℝ) - 3/4 * Real.sqrt (variance : ℚ))]
  · intro hr
    have h1r : (0 : ℝ) ≤ (v : ℝ) - (mean : ℝ) := by nlinarith
    constructor
    · exact_mod_cast h1r
    · have h2r : ((9/16 * variance : ℚ) : ℝ) < (((v - mean) ^ 2 : ℚ) : ℝ) := by
        push_cast
        nlinarith
      exact_mod_cast h2r

/-- The squared encoding `geThreshold` agrees with the literal comparison
`value >= mean + 0.75 * sqrt variance` over the reals. -/
lemma geThreshold_iff_sqrt (v mean variance : ℚ) (h : 0 ≤ variance) :
    geThreshold v mean variance = true ↔
      (mean : ℝ) + 3/4 * Real.sqrt (variance : ℚ) ≤ (v : ℝ) := by
  have hvr : (0 : ℝ) ≤ (variance : ℚ) := by exact_mod_cast h
  have hs : Real.sqrt (variance : ℚ) ^ 2 = (variance : ℚ) := Real.sq_sqrt hvr
  have hs0 : (0 : ℝ) ≤ Real.sqrt (variance : ℚ) := Real.sqrt_nonneg _
  unfold geThreshold
  rw [decide_eq_true_eq]
  constructor
  · rintro ⟨h1, h2⟩
    have h1r : (0 : ℝ) ≤ (v : ℝ) - (mean : ℝ) := by exact_mod_cast h1
    have h2r : ((9/16 * variance : ℚ) : ℝ) ≤ (((v - mean) ^ 2 : ℚ) : ℝ) := by
      exact_mod_cast h2
    push_cast at h2r
    nlinarith [sq_nonneg ((v : ℝ) - (mean : ℝ) - 3/4 * Real.sqrt (variance : ℚ))]
  · intro hr
    have h1r : (0 : ℝ) ≤ (v : ℝ) - (mean : ℝ) := by nlinarith
    constructor
    · exact_mod_cast h1r
    · have h2r : ((9/16 * variance : ℚ) : ℝ) ≤ (((v - mean) ^ 2 : ℚ) : ℝ) := by
        push_cast
        nlinarith
      exact_mod_cast h2r

/-- A solid-colour 4x4 frame with no edges and no faces, for concrete runs. -/
def frame0 : DecodedFrame Unit :=
  { w := 4
    h := 4
    left_density := 0
    right_density := 0
    top_density := 0
    bottom_density := 0
    center_density := 0
    faces := []
    gray := () }

/-- Pixel-difference capability of a static video: all diffs are zero. -/
def dzero : Unit → Unit → ℚ := fun _ _ => 0

/-- A decoder that fails at every index. -/
def dnone : ℕ → Option (DecodedFrame Unit) := fun _ => none

/-- A decoder that decodes `frame0` at every index. -/
def dall : ℕ → Option (DecodedFrame Unit) := fun _ => some frame0

/-- A static (zero-motion) synthetic source with the given frame count, ratio
argument and raw fps, on the normal path. -/
def mkEnv (total : ℤ) (ratio fps : ℚ) : Env Unit :=
  { path_exists := true
    imports_ok := true
    cap_opened := true
    total_frames_raw := total
    fps_raw := fps
    width := 4
    height := 4
    sample_ratio_arg := ratio
    decoder := dall
    diffMean := dzero
    bandDiffMean := dzero }

/-- An environment whose input path does not exist. -/
def envMissing : Env Unit :=
  { path_exists := false
    imports_ok := true
    cap_opened := true
    total_frames_raw := 100
    fps_raw := 30
    width := 640
    height := 480
    sample_ratio_arg := 1/10
    decoder := dall
    diffMean := dzero
    bandDiffMean := dzero }

lemma scanFrames_stop (dm bm : Gray → Gray → ℚ) (dec : ℕ → Option (DecodedFrame Gray))
    (total stride : ℕ) (fps : ℚ) (fuel i : ℕ) (st : ScanState Gray) (h : ¬ i < total) :
    scanFrames dm bm dec total stride fps fuel i st = st := by
  cases fuel with
  | zero => rfl
  | succ fuel => rw [scanFrames]; simp [h]

lemma scanFrames_skip (dm bm : Gray → Gray → ℚ) (dec : ℕ → Option (DecodedFrame Gray))
    (total stride : ℕ) (fps : ℚ) (fuel i : ℕ) (st : ScanState Gray)
    (h : i < total) (hd : dec i = none) :
    scanFrames dm bm dec total stride fps (fuel + 1) i st =
      scanFrames dm bm dec total stride fps fuel (i + stride) st := by
  rw [scanFrames]
  simp [h, hd]

lemma scanFrames_step (dm bm : Gray → Gray → ℚ) (dec : ℕ → Option (DecodedFrame Gray))
    (total stride : ℕ) (fps : ℚ) (fuel i : ℕ) (st : ScanState Gray) (f : DecodedFrame Gray)
    (h : i < total) (hd : dec i = some f) :
    scanFrames dm bm dec total stride fps (fuel + 1) i st =
      scanFrames dm bm dec total stride fps fuel (i + stride)
        (stepFrame dm bm fps i f st) := by
  rw [scanFrames]
  simp [h, hd]

lemma decodedIndices_nil (dec : ℕ → Option (DecodedFrame Gray)) (total stride fuel i : ℕ)
    (h : ¬ i < total) : decodedIndices dec total stride fuel i = [] := by
  cases fuel with
  | zero => rfl
  | succ fuel => rw [decodedIndices]; simp [h]

/-- The loop state after any number of iterations, related to the indices at
which decoding succeeded: the sampled-frame counter counts them, the two
motion sequences stay aligned with it, and each visited decodable index
appends the timestamp `frame_index / max(1.0, fps)`. -/
lemma scanFrames_trace (dm bm : Gray → Gray → ℚ) (dec : ℕ → Option (DecodedFrame Gray))
    (total stride : ℕ) (fps : ℚ) :
    ∀ (fuel i : ℕ) (st : ScanState Gray),
      (scanFrames dm bm dec total stride fps fuel i st).sampled_frames
          = st.sampled_frames + (decodedIndices dec total stride fuel i).length
        ∧ (scanFrames dm bm dec total stride fps fuel i st).motion_values.length
          = st.motion_values.length + (decodedIndices dec total stride fuel i).length
        ∧ (scanFrames dm bm dec total stride fps fuel i st).motion_timestamps
          = st.motion_timestamps
            ++ (decodedIndices dec total stride fuel i).map (fun j : ℕ => (j : ℚ) / max 1 fps) := by
  intro fuel
  induction fuel with
  | zero =>
    intro i st
    simp [scanFrames, decodedIndices]
  | succ fuel ih =>
    intro i st
    by_cases h : i < total
    · cases hd : dec i with
      | none =>
        rw [scanFrames_skip dm bm dec total stride fps fuel i st h hd]
        rw [decodedIndices]
        simp only [if_pos h, hd]
        exact ih (i + stride) st
      | some f =>
        rw [scanFrames_step dm bm dec total stride fps fuel i st f h hd]
        rw [decodedIndices]
        simp only [if_pos h, hd]
        obtain ⟨h1, h2, h3⟩ := ih (i + stride) (stepFrame dm bm fps i f st)
        refine ⟨?_, ?_, ?_⟩
        · rw [h1]; simp [stepFrame]; omega
        · rw [h2]; simp [stepFrame]; omega
        · rw [h3]; simp [stepFrame]
    · rw [scanFrames_stop dm bm dec total stride fps (fuel + 1) i st h,
        decodedIndices_nil dec total stride (fuel + 1) i h]
      simp

lemma decodedIndices_mem_lb (dec : ℕ → Option (DecodedFrame Gray)) (total stride : ℕ) :
    ∀ (fuel i j : ℕ), j ∈ decodedIndices dec total stride fuel i → i ≤ j := by
  intro fuel
  induction fuel with
  | zero => intro i j hj; simp [decodedIndices] at hj
  | succ fuel ih =>
    intro i j hj
    rw [decodedIndices] at hj
    by_cases h : i < total
    · rw [if_pos h] at hj
      cases hd : dec i with
      | none =>
        rw [hd] at hj
        exact le_trans (Nat.le_add_right i stride) (ih (i + stride) j hj)
      | some f =>
        rw [hd] at hj
        rcases List.mem_cons.mp hj with rfl | hj2
        · exact le_refl j
        · exact le_trans (Nat.le_add_right i stride) (ih (i + stride) j hj2)
    · rw [if_neg h] at hj
      simp at hj

lemma decodedIndices_sorted (dec : ℕ → Option (DecodedFrame Gray)) (total stride : ℕ)
    (hstride : 0 < stride) :
    ∀ (fuel i : ℕ), List.Pairwise (· < ·) (decodedIndices dec total stride fuel i) := by
  intro fuel
  induction fuel with
  | zero => intro i; simp [decodedIndices]
  | succ fuel ih =>
    intro i
    rw [decodedIndices]
    by_cases h : i < total
    · rw [if_pos h]
      cases hd : dec i with
      | none => exact ih (i + stride)
      | some f =>
        refine List.Pairwise.cons ?_ (ih (i + stride))
        intro j hj
        have := decodedIndices_mem_lb dec total stride fuel (i + stride) j hj
        omega
    · rw [if_neg h]
      exact List.Pairwise.nil

lemma dedupPeaks_length_le : ∀ (l : List (ℚ × ℚ)) (acc : List ℚ),
    acc.length ≤ 5 → (dedupPeaks l acc).length ≤ 6 := by
  intro l
  induction l with
  | nil => intro acc h; rw [dedupPeaks]; omega
  | cons p rest ih =>
    intro acc h
    rw [dedupPeaks]
    split
    · exact ih acc h
    · split
      · rename_i hlen
        simp only [List.length_append, List.length_cons, List.length_nil] at *
        omega
      · rename_i hlen
        apply ih
        simp at hlen ⊢
        omega

lemma dedupPeaks_length_ge : ∀ (l : List (ℚ × ℚ)) (acc : List ℚ),
    acc.length ≤ (dedupPeaks l acc).length := by
  intro l
  induction l with
  | nil => intro acc; rw [dedupPeaks]
  | cons p rest ih =>
    intro acc
    rw [dedupPeaks]
    split
    · exact ih acc
    · split
      · simp
      · calc acc.length ≤ (acc ++ [p.1]).length := by simp
          _ ≤ _ := ih (acc ++ [p.1])

lemma dedupPeaks_pairwise : ∀ (l : List (ℚ × ℚ)) (acc : List ℚ),
    List.Pairwise (fun a b => 9/2 ≤ |a - b|) acc →
    List.Pairwise (fun a b => 9/2 ≤ |a - b|) (dedupPeaks l acc) := by
  intro l
  induction l with
  | nil => intro acc h; rw [dedupPeaks]; exact h
  | cons p rest ih =>
    intro acc h
    rw [dedupPeaks]
    split
    · exact ih acc h
    · rename_i hany
      have hfar : ∀ e ∈ acc, 9/2 ≤ |e - p.1| := by
        intro e he
        have : ¬ (|p.1 - e| < 9/2) := by
          intro hcon
          exact hany (by
            rw [List.any_eq_true]
            exact ⟨e, he, by simpa using hcon⟩)
        rw [abs_sub_comm]
        linarith [not_lt.mp this]
      have happ : List.Pairwise (fun a b => 9/2 ≤ |a - b|) (acc ++ [p.1]) := by
        rw [List.pairwise_append]
        refine ⟨h, List.pairwise_singleton _ _, ?_⟩
        intro a ha b hb
        rw [List.mem_singleton] at hb
        subst hb
        exact hfar a ha
      split
      · exact happ
      · exact ih (acc ++ [p.1]) happ

lemma dedupPeaks_extends : ∀ (l : List (ℚ × ℚ)) (acc : List ℚ),
    ∃ t, dedupPeaks l acc = acc ++ t := by
  intro l
  induction l with
  | nil => intro acc; exact ⟨[], by rw [dedupPeaks]; simp⟩
  | cons p rest ih =>
    intro acc
    rw [dedupPeaks]
    split
    · exact ih acc
    · split
      · exact ⟨[p.1], rfl⟩
      · obtain ⟨t, ht⟩ := ih (acc ++ [p.1])
        exact ⟨[p.1] ++ t, by rw [ht, List.append_assoc]⟩

lemma visitedIndices_nil (total stride fuel i : ℕ) (h : ¬ i < total) :
    visitedIndices total stride fuel i = [] := by
  cases fuel with
  | zero => rfl
  | succ fuel => rw [visitedIndices]; simp [h]

/-- With enough fuel, the visited indices are exactly the multiples of the
stride (counted from the start index) that lie below the frame count. -/
lemma visitedIndices_mem (total stride : ℕ) (hstride : 0 < stride) :
    ∀ (fuel i : ℕ), total ≤ i + fuel →
      ∀ j, j ∈ visitedIndices total stride fuel i ↔ ((∃ k, j = i + stride * k) ∧ j < total) := by
  intro fuel
  induction fuel with
  | zero =>
    intro i hfi j
    simp only [visitedIndices, List.not_mem_nil, false_iff]
    rintro ⟨⟨k, rfl⟩, hlt⟩
    omega
  | succ fuel ih =>
    intro i hfi j
    rw [visitedIndices]
    by_cases h : i < total
    · rw [if_pos h, List.mem_cons, ih (i + stride) (by omega) j]
      constructor
      · rintro (rfl | ⟨⟨k, rfl⟩, hlt⟩)
        · exact ⟨⟨0, by omega⟩, h⟩
        · exact ⟨⟨k + 1, by ring⟩, hlt⟩
      · rintro ⟨⟨k, rfl⟩, hlt⟩
        cases k with
        | zero => left; omega
        | succ k => right; exact ⟨⟨k, by ring⟩, hlt⟩
    · rw [if_neg h]
      simp only [List.not_mem_nil, false_iff]
      rintro ⟨⟨k, rfl⟩, hlt⟩
      omega

/-- The number of visited indices is at most `total/stride + 1`. -/
lemma visitedIndices_length (total stride : ℕ) (hstride : 0 < stride) :
    ∀ (fuel i : ℕ), (visitedIndices total stride fuel i).length ≤ (total - i) / stride + 1 := by
  intro fuel
  induction fuel with
  | zero => intro i; simp [visitedIndices]
  | succ fuel ih =>
    intro i
    rw [visitedIndices]
    by_cases h : i < total
    · rw [if_pos h]
      by_cases h2 : i + stride < total
      · have hrec := ih (i + stride)
        have key : (total - (i + stride)) / stride + 1 ≤ (total - i) / stride := by
          have hd : stride ≤ total - i := by omega
          obtain ⟨q, r, hqr, hrlt⟩ : ∃ q r, total - i = stride * q + r ∧ r < stride :=
            ⟨(total - i) / stride, (total - i) % stride,
              by rw [Nat.div_add_mod], Nat.mod_lt _ hstride⟩
          have hq1 : 1 ≤ q := by nlinarith
          obtain ⟨q2, rfl⟩ : ∃ q2, q = q2 + 1 := ⟨q - 1, by omega⟩
          have hmul : stride * (q2 + 1) = stride * q2 + stride := by ring
          have e1 : (total - i) / stride = q2 + 1 + r / stride := by
            rw [hqr, Nat.mul_add_div hstride]
          have hsub2 : total - (i + stride) = stride * q2 + r := by omega
          have e2 : (total - (i + stride)) / stride = q2 + r / stride := by
            rw [hsub2, Nat.mul_add_div hstride]
          have e3 : r / stride = 0 := Nat.div_eq_of_lt hrlt
          omega
        simp only [List.length_cons]
        omega
      · rw [visitedIndices_nil total stride fuel (i + stride) h2]
        simp
    · rw [if_neg h]
      simp

/-- Every signal field the result builder emits lies in `[0,1]`: each is a
4-decimal rounding of a `clamp(_, 0, 1)`. -/
lemma buildResult_bounds (stride : ℕ) (st : ScanState Gray) :
    (0 ≤ (buildResult stride st).portraitSignal ∧ (buildResult stride st).portraitSignal ≤ 1)
    ∧ (0 ≤ (buildResult stride st).landscapeSignal ∧ (buildResult stride st).landscapeSignal ≤ 1)
    ∧ (0 ≤ (buildResult stride st).centeredFaceVerticalSignal
        ∧ (buildResult stride st).centeredFaceVerticalSignal ≤ 1)
    ∧ (0 ≤ (buildResult stride st).horizontalMotionSignal
        ∧ (buildResult stride st).horizontalMotionSignal ≤ 1)
    ∧ (0 ≤ (buildResult stride st).highMotionShortClipSignal
        ∧ (buildResult stride st).highMotionShortClipSignal ≤ 1) := by
  refine ⟨?_, ?_, ?_, ?_, ?_⟩ <;>
    · refine roundTo_unit 10000 (by norm_num) _ ?_ ?_ <;>
        first
          | exact (clamp_unit_mem _).1
          | exact (clamp_unit_mem _).2

/-- Whatever path `main` takes, the emitted peak list is the rounding of a
greedy de-duplication run (the fallback emits the empty run). -/
lemma main_peaks_shape (Gray : Type) (env : Env Gray) :
    ∃ pairs, (main env).2.motionPeaks = (dedupPeaks pairs []).map (roundTo 100) := by
  unfold main
  split
  · exact ⟨[], by rw [dedupPeaks]; rfl⟩
  · split
    · exact ⟨[], by rw [dedupPeaks]; rfl⟩
    · split
      · exact ⟨[], by rw [dedupPeaks]; rfl⟩
      · split
        · exact ⟨[], by rw [dedupPeaks]; rfl⟩
        · split
          · exact ⟨[], by rw [dedupPeaks]; rfl⟩
          · exact ⟨sortByValueDesc (peakCandidates (scanStateOf env).motion_timestamps
              (scanStateOf env).motion_values
              (listMean (motionArrayOf (scanStateOf env).motion_values))
              (listVar (motionArrayOf (scanStateOf env).motion_values))), rfl⟩

lemma pairwise_get_of_pairwise (R : ℚ → ℚ → Prop) (hsymm : ∀ a b, R a b → R b a)
    (l : List ℚ) (h : List.Pairwise R l) :
    ∀ i j (hi : i < l.length) (hj : j < l.length), i ≠ j →
      R (l.get ⟨i, hi⟩) (l.get ⟨j, hj⟩) := by
  intro i j hi hj hne
  rcases Nat.lt_or_ge i j with hij | hij
  · exact List.pairwise_iff_get.mp h ⟨i, hi⟩ ⟨j, hj⟩ hij
  · have hji : j < i := by omega
    exact hsymm _ _ (List.pairwise_iff_get.mp h ⟨j, hj⟩ ⟨i, hi⟩ hji)

lemma listMean_zero (xs : List ℚ) (h : ∀ v ∈ xs, v = 0) : listMean xs = 0 := by
  unfold listMean
  rw [List.sum_eq_zero h]
  simp

lemma listVar_zero (xs : List ℚ) (h : ∀ v ∈ xs, v = 0) : listVar xs = 0 := by
  unfold listVar
  apply listMean_zero
  intro v hv
  rw [List.mem_map] at hv
  obtain ⟨a, ha, rfl⟩ := hv
  rw [h a ha, listMean_zero xs h]
  ring

lemma motionArrayOf_zero (xs : List ℚ) (h : ∀ v ∈ xs, v = 0) :
    ∀ v ∈ motionArrayOf xs, v = 0 := by
  unfold motionArrayOf
  split
  · intro v hv
    rw [List.mem_singleton] at hv
    exact hv
  · exact h

lemma motionArrayOf_of_ne_nil (xs : List ℚ) (h : xs ≠ []) : motionArrayOf xs = xs := by
  unfold motionArrayOf
  rw [if_neg]
  simpa using h

lemma roundTo_zero (m : ℕ) : roundTo m 0 = 0 := by
  unfold roundTo roundHalfEven
  rw [mul_zero]
  norm_num

lemma insertByValueDesc_length (p : ℚ × ℚ) :
    ∀ l : List (ℚ × ℚ), (insertByValueDesc p l).length = l.length + 1 := by
  intro l
  induction l with
  | nil => rfl
  | cons q rest ih =>
    rw [insertByValueDesc]
    split
    · simp only [List.length_cons, ih]
    · simp

lemma sortByValueDesc_length : ∀ l : List (ℚ × ℚ), (sortByValueDesc l).length = l.length := by
  intro l
  induction l with
  | nil => rfl
  | cons p rest ih =>
    rw [sortByValueDesc, insertByValueDesc_length, ih, List.length_cons]

lemma dedupPeaks_ne_nil : ∀ l : List (ℚ × ℚ), l ≠ [] → dedupPeaks l [] ≠ [] := by
  intro l hl
  obtain ⟨p, rest, rfl⟩ := List.exists_cons_of_ne_nil hl
  rw [dedupPeaks]
  simp only [List.any_nil, List.nil_append]
  rw [if_neg (by simp)]
  rw [if_neg (by norm_num)]
  intro hcon
  have hge := dedupPeaks_length_ge rest [p.1]
  rw [hcon] at hge
  simp at hge

lemma scanFrames_motion_zero (dm bm : Gray → Gray → ℚ) (hdm : ∀ g1 g2, dm g1 g2 = 0)
    (dec : ℕ → Option (DecodedFrame Gray)) (total stride : ℕ) (fps : ℚ) :
    ∀ (fuel i : ℕ) (st : ScanState Gray), (∀ v ∈ st.motion_values, v = 0) →
      ∀ v ∈ (scanFrames dm bm dec total stride fps fuel i st).motion_values, v = 0 := by
  intro fuel
  induction fuel with
  | zero => intro i st h; exact h
  | succ fuel ih =>
    intro i st h
    by_cases hlt : i < total
    · cases hdc : dec i with
      | none =>
        rw [scanFrames_skip dm bm dec total stride fps fuel i st hlt hdc]
        exact ih _ _ h
      | some f =>
        rw [scanFrames_step dm bm dec total stride fps fuel i st f hlt hdc]
        apply ih
        intro v hv
        simp only [stepFrame] at hv
        rw [List.mem_append] at hv
        rcases hv with hv | hv
        · exact h v hv
        · rw [List.mem_singleton] at hv
          subst hv
          cases hpg : st.prev_gray with
          | none => simp [hpg]
          | some pg => simp [hpg, hdm]
    · rw [scanFrames_stop dm bm dec total stride fps (fuel + 1) i st hlt]
      exact h

/-- On an all-zero motion series, the result builder emits a zero
high-motion signal but a NON-empty peak list: every sampled frame passes the
`value >= threshold` candidacy test since both sides are 0. -/
lemma buildResult_zero_motion (stride : ℕ) (st : ScanState Gray)
    (hz : ∀ v ∈ st.motion_values, v = 0) (hne : st.motion_values ≠ [])
    (hlen : st.motion_timestamps.length = st.motion_values.length) :
    (buildResult stride st).highMotionShortClipSignal = 0
    ∧ (buildResult stride st).motionPeaks ≠ [] := by
  have harr : motionArrayOf st.motion_values = st.motion_values :=
    motionArrayOf_of_ne_nil _ hne
  have hmean : listMean (motionArrayOf st.motion_values) = 0 :=
    listMean_zero _ (motionArrayOf_zero _ hz)
  have hvar : listVar (motionArrayOf st.motion_values) = 0 :=
    listVar_zero _ (motionArrayOf_zero _ hz)
  constructor
  · show roundTo 10000 (clamp ((if 0 < (motionArrayOf st.motion_values).length then
      (((motionArrayOf st.motion_values).countP (fun v =>
          gtThreshold v (listMean (motionArrayOf st.motion_values))
            (listVar (motionArrayOf st.motion_values)))) : ℚ)
        / ((motionArrayOf st.motion_values).length : ℚ)
      else 0) * (135/100)) 0 1) = 0
    have hcount : (motionArrayOf st.motion_values).countP (fun v =>
        gtThreshold v (listMean (motionArrayOf st.motion_values))
          (listVar (motionArrayOf st.motion_values))) = 0 := by
      rw [List.countP_eq_zero]
      intro a ha
      rw [motionArrayOf_zero _ hz a ha, hmean, hvar]
      norm_num [gtThreshold]
    rw [hcount]
    have hzero : ((0 : ℕ) : ℚ) / ((motionArrayOf st.motion_values).length : ℚ) = 0 := by
      simp
    rw [hzero, ite_self, zero_mul]
    rw [show clamp 0 0 1 = 0 from by unfold clamp; norm_num]
    exact roundTo_zero 10000
  · show ((dedupPeaks (sortByValueDesc (peakCandidates st.motion_timestamps
      st.motion_values (listMean (motionArrayOf st.motion_values))
      (listVar (motionArrayOf st.motion_values)))) []).map (roundTo 100)) ≠ []
    have hcand : peakCandidates st.motion_timestamps st.motion_values
        (listMean (motionArrayOf st.motion_values))
        (listVar (motionArrayOf st.motion_values))
        = st.motion_timestamps.zip st.motion_values := by
      unfold peakCandidates
      rw [List.filter_eq_self]
      intro p hp
      have hv2 : p.2 ∈ st.motion_values := (List.of_mem_zip hp).2
      rw [hz p.2 hv2, hmean, hvar]
      norm_num [geThreshold]
    rw [hcand]
    have hzne : st.motion_timestamps.zip st.motion_values ≠ [] := by
      have hlz : (st.motion_timestamps.zip st.motion_values).length
          = st.motion_values.length := by
        rw [List.length_zip, hlen, min_self]
      intro hcon
      rw [hcon] at hlz
      exact hne (List.eq_nil_of_length_eq_zero hlz.symm)
    have hsne : sortByValueDesc (st.motion_timestamps.zip st.motion_values) ≠ [] := by
      intro hcon
      have := sortByValueDesc_length (st.motion_timestamps.zip st.motion_values)
      rw [hcon] at this
      exact hzne (List.eq_nil_of_length_eq_zero this.symm)
    intro hcon
    rw [List.map_eq_nil] at hcon
    exact dedupPeaks_ne_nil _ hsne hcon

/-- Claim C3: for every input, the returned motionPeaks has length at most 6,
every entry is rounded to 2 decimal places (an integer multiple of 1/100),
and any two entries at distinct positions differ by at least 4.5 seconds —
for the rounded values actually returned. -/
theorem C3_motion_peaks_bounded_rounded_separated (Gray : Type) (env : Env Gray) :
    (main env).2.motionPeaks.length ≤ 6
    ∧ (∀ p ∈ (main env).2.motionPeaks, ∃ k : ℤ, p = (k : ℚ) / 100)
    ∧ (∀ i j : ℕ, ∀ (hi : i < (main env).2.motionPeaks.length)
        (hj : j < (main env).2.motionPeaks.length), i ≠ j →
          9/2 ≤ |(main env).2.motionPeaks.get ⟨i, hi⟩
            - (main env).2.motionPeaks.get ⟨j, hj⟩|) := by
  obtain ⟨pairs, hp⟩ := main_peaks_shape Gray env
  have hpw : List.Pairwise (fun a b => 9/2 ≤ |a - b|)
      ((dedupPeaks pairs []).map (roundTo 100)) := by
    rw [List.pairwise_map]
    exact (dedupPeaks_pairwise pairs [] List.Pairwise.nil).imp
      (fun hab => roundTo_hundred_gap_abs _ _ hab)
  refine ⟨?_, ?_, ?_⟩
  · rw [hp, List.length_map]
    exact dedupPeaks_length_le pairs [] (by norm_num)
  · intro p hmem
    rw [hp, List.mem_map] at hmem
    obtain ⟨x, hx, rfl⟩ := hmem
    refine ⟨roundHalfEven ((100:ℕ) * x), ?_⟩
    unfold roundTo
    norm_num
  · rw [hp]
    exact pairwise_get_of_pairwise _
      (fun a b hab => by rw [abs_sub_comm]; exact hab) _ hpw

/-- Claim C1: for every input (any video metadata, any sampled frame contents,
any face-detection output, any sampling ratio), each of the five scalar signal
fields of the returned ScanResult lies within `[0,1]` inclusive, both on the
normal path and on the fallback path. -/
theorem C1_signals_in_unit_interval (Gray : Type) (env : Env Gray) :
    (0 ≤ (main env).2.portraitSignal ∧ (main env).2.portraitSignal ≤ 1)
    ∧ (0 ≤ (main env).2.landscapeSignal ∧ (main env).2.landscapeSignal ≤ 1)
    ∧ (0 ≤ (main env).2.centeredFaceVerticalSignal
        ∧ (main env).2.centeredFaceVerticalSignal ≤ 1)
    ∧ (0 ≤ (main env).2.horizontalMotionSignal ∧ (main env).2.horizontalMotionSignal ≤ 1)
    ∧ (0 ≤ (main env).2.highMotionShortClipSignal
        ∧ (main env).2.highMotionShortClipSignal ≤ 1) := by
  unfold main
  split
  · norm_num [fallback_payload]
  · split
    · norm_num [fallback_payload]
    · split
      · norm_num [fallback_payload]
      · split
        · norm_num [fallback_payload]
        · split
          · norm_num [fallback_payload]
          · exact buildResult_bounds _ _

/-- Claim C2: the engine never raises: on every exit path the exit status is 0
and, for a missing input path, an unavailable decode capability, an unopenable
source, non-positive dimensions or frame count, or zero sampled frames after a
full pass, the returned payload is exactly the documented fallback payload. -/
theorem C2_never_fails_fallback_payload (Gray : Type) (env : Env Gray) :
    (main env).1 = 0
    ∧ (env.path_exists = false → (main env).2 = fallback_payload)
    ∧ (env.imports_ok = false → (main env).2 = fallback_payload)
    ∧ (env.cap_opened = false → (main env).2 = fallback_payload)
    ∧ ((env.total_frames_raw ≤ 0 ∨ env.width ≤ 0 ∨ env.height ≤ 0) →
        (main env).2 = fallback_payload)
    ∧ ((scanStateOf env).sampled_frames = 0 → (main env).2 = fallback_payload) := by
  unfold main
  split
  · exact ⟨rfl, fun _ => rfl, fun _ => rfl, fun _ => rfl, fun _ => rfl, fun _ => rfl⟩
  · split
    · exact ⟨rfl, fun _ => rfl, fun _ => rfl, fun _ => rfl, fun _ => rfl, fun _ => rfl⟩
    · split
      · exact ⟨rfl, fun _ => rfl, fun _ => rfl, fun _ => rfl, fun _ => rfl, fun _ => rfl⟩
      · split
        · exact ⟨rfl, fun _ => rfl, fun _ => rfl, fun _ => rfl, fun _ => rfl, fun _ => rfl⟩
        · split
          · exact ⟨rfl, fun _ => rfl, fun _ => rfl, fun _ => rfl, fun _ => rfl, fun _ => rfl⟩
          · rename_i hna hnb hnc hnd hne
            exact ⟨rfl, fun hc => absurd hc hna, fun hc => absurd hc hnb,
              fun hc => absurd hc hnc, fun hc => absurd hc hnd, fun hc => absurd hc hne⟩

/-- Witness for C2 at a concrete missing-path environment. -/
theorem C2_fallback_witness :
    (main envMissing).1 = 0 ∧ (main envMissing).2 = fallback_payload :=
  ⟨(C2_never_fails_fallback_payload Unit envMissing).1,
    (C2_never_fails_fallback_payload Unit envMissing).2.1 rfl⟩

/-- Claim C5 counterexample: the claim computes the effective ratio as
`clamp(ratio, 0.01, 0.5)` for EVERY sampling ratio, but at ratio 0 the code
first applies the `or 0.1` default: the code's effective ratio is 0.1, not
0.01, and at 1000 frames the code targets 100 samples, not 10. -/
theorem C5_ratio_zero_counterexample :
    ratioUsed 0 = 1/10 ∧ clamp 0 (1/100) (1/2) = 1/100
    ∧ ratioUsed 0 ≠ clamp 0 (1/100) (1/2)
    ∧ sample_count_of 1000 0 = 100
    ∧ max 1 (⌊(1000 : ℚ) * clamp 0 (1/100) (1/2)⌋).toNat = 10
    ∧ sample_count_of 1000 0 ≠ max 1 (⌊(1000 : ℚ) * clamp 0 (1/100) (1/2)⌋).toNat := by
  have hc : clamp 0 (1/100) (1/2) = 1/100 := by
    unfold clamp
    rw [min_eq_right (by norm_num), max_eq_left (by norm_num)]
  have hr : ratioUsed 0 = 1/10 := by
    unfold ratioUsed clamp
    rw [if_pos rfl, min_eq_right (by norm_num), max_eq_right (by norm_num)]
  have hcount : sample_count_of 1000 0 = 100 := by
    unfold sample_count_of
    rw [hr]
    norm_num
    rfl
  have hspec : max 1 (⌊(1000 : ℚ) * clamp 0 (1/100) (1/2)⌋).toNat = 10 := by
    rw [hc]
    norm_num
    rfl
  refine ⟨hr, hc, ?_, hcount, hspec, ?_⟩
  · rw [hr, hc]
    norm_num
  · rw [hcount, hspec]
    norm_num

/-- Claim C5 as amended: with the effective ratio
`clamp(ratio if ratio ≠ 0 else 0.1, 0.01, 0.5)` (the code's `or 0.1` default),
for every positive frame count: the sample count and stride are at least 1,
the loop visits exactly the indices `0, stride, 2*stride, ...` strictly below
the frame count, and their number is at most `totalFrames/stride + 1`. -/
theorem C5_sampler_amended (total : ℕ) (ratio : ℚ) (htotal : 0 < total) :
    1 ≤ sample_count_of total ratio
    ∧ 1 ≤ sample_stride_of total ratio
    ∧ (ratio ≠ 0 → ratioUsed ratio = clamp ratio (1/100) (1/2))
    ∧ (∀ j, j ∈ visitedIndices total (sample_stride_of total ratio) total 0 ↔
        ((∃ k, j = sample_stride_of total ratio * k) ∧ j < total))
    ∧ (visitedIndices total (sample_stride_of total ratio) total 0).length
        ≤ total / sample_stride_of total ratio + 1 := by
  have hstride : 0 < sample_stride_of total ratio :=
    lt_of_lt_of_le Nat.one_pos (le_max_left 1 _)
  refine ⟨le_max_left 1 _, le_max_left 1 _, ?_, ?_, ?_⟩
  · intro h
    unfold ratioUsed
    rw [if_neg h]
  · intro j
    have hm := visitedIndices_mem total (sample_stride_of total ratio) hstride total 0
      (by omega) j
    simpa using hm
  · have hl := visitedIndices_length total (sample_stride_of total ratio) hstride total 0
    simpa using hl

/-- Witness for the amended C5 at `totalFrames = 3`, `ratio = 1/2`. -/
theorem C5_sampler_witness :
    1 ≤ sample_count_of 3 (1/2) ∧ 1 ≤ sample_stride_of 3 (1/2) :=
  ⟨(C5_sampler_amended 3 (1/2) (by norm_num)).1,
    (C5_sampler_amended 3 (1/2) (by norm_num)).2.1⟩

/-- Claim C7: the first sampled frame has motion value 0 and contributes to
neither motion accumulator; its 0 entry is still appended to the motion
values, its grayscale buffer becomes the previous buffer, and the horizontal
motion signal is normalized by `max(1, sampledFrames - 1)`. -/
theorem C7_first_sampled_frame (Gray : Type) (dm bm : Gray → Gray → ℚ) (fps : ℚ)
    (i : ℕ) (f : DecodedFrame Gray) (st : ScanState Gray) (h : st.prev_gray = none) :
    (stepFrame dm bm fps i f st).motion_values = st.motion_values ++ [0]
    ∧ (stepFrame dm bm fps i f st).horizontal_motion_total = st.horizontal_motion_total
    ∧ (stepFrame dm bm fps i f st).prev_gray = some f.gray
    ∧ (stepFrame dm bm fps i f st).sampled_frames = st.sampled_frames + 1
    ∧ ∀ env : Env Gray,
        env.path_exists = true → env.imports_ok = true → env.cap_opened = true →
        ¬(env.total_frames_raw ≤ 0 ∨ env.width ≤ 0 ∨ env.height ≤ 0) →
        ¬((scanStateOf env).sampled_frames = 0) →
        (main env).2.horizontalMotionSignal =
          roundTo 10000 (clamp ((scanStateOf env).horizontal_motion_total
            / ((max 1 ((scanStateOf env).sampled_frames - 1) : ℕ) : ℚ)) 0 1) := by
  refine ⟨?_, ?_, ?_, ?_, ?_⟩
  · simp [stepFrame, h]
  · simp [stepFrame, h]
  · simp [stepFrame]
  · simp [stepFrame]
  · intro env h1 h2 h3 h4 h5
    unfold main
    rw [if_neg (by simp [h1]), if_neg (by simp [h2]), if_neg (by simp [h3]),
      if_neg h4, if_neg h5]
    rfl

/-- Witness for C7 at a concrete first frame on an empty accumulator state. -/
theorem C7_first_frame_witness :
    (stepFrame dzero dzero 1 0 frame0 (initState : ScanState Unit)).motion_values
        = (initState : ScanState Unit).motion_values ++ [0]
    ∧ (stepFrame dzero dzero 1 0 frame0 (initState : ScanState Unit)).prev_gray
        = some frame0.gray :=
  ⟨(C7_first_sampled_frame Unit dzero dzero 1 0 frame0 initState rfl).1,
    (C7_first_sampled_frame Unit dzero dzero 1 0 frame0 initState rfl).2.2.1⟩

/-- Claim C8: when decoding fails at a sampled index, the index is skipped by
advancing by the stride with the whole loop state unchanged (counter not
incremented, nothing appended, nothing summed) and the scan continues. -/
theorem C8_decode_failure_skips (Gray : Type) (dm bm : Gray → Gray → ℚ)
    (dec : ℕ → Option (DecodedFrame Gray)) (total stride : ℕ) (fps : ℚ)
    (fuel i : ℕ) (st : ScanState Gray) (hd : dec i = none) (hi : i < total) :
    scanFrames dm bm dec total stride fps (fuel + 1) i st
      = scanFrames dm bm dec total stride fps fuel (i + stride) st
    ∧ decodedIndices dec total stride (fuel + 1) i
      = decodedIndices dec total stride fuel (i + stride) := by
  refine ⟨scanFrames_skip dm bm dec total stride fps fuel i st hi hd, ?_⟩
  rw [decodedIndices]
  simp [hi, hd]

/-- Witness for C8 at a concrete always-failing decoder. -/
theorem C8_skip_witness :
    scanFrames dzero dzero dnone 3 1 1 3 0 initState
      = scanFrames dzero dzero dnone 3 1 1 2 1 initState :=
  (C8_decode_failure_skips Unit dzero dzero dnone 3 1 1 2 0 initState rfl
    (by norm_num)).1

/-- Claim C9 counterexample: "ratio 0 samples ten times more frames than ratio
0.005" fails at 15 total frames: both target sample counts collapse to 1. -/
theorem C9_tenfold_counterexample :
    sample_count_of 15 0 = 1 ∧ sample_count_of 15 (1/200) = 1
    ∧ ¬ (sample_count_of 15 0 = 10 * sample_count_of 15 (1/200)) := by
  have hr0 : ratioUsed 0 = 1/10 := by
    unfold ratioUsed clamp
    rw [if_pos rfl, min_eq_right (by norm_num), max_eq_right (by norm_num)]
  have hr1 : ratioUsed (1/200) = 1/100 := by
    unfold ratioUsed clamp
    rw [if_neg (by norm_num), min_eq_right (by norm_num), max_eq_left (by norm_num)]
  have h0 : sample_count_of 15 0 = 1 := by
    unfold sample_count_of
    rw [hr0]
    rw [show ((15 : ℕ) : ℚ) * (1/10) = (3 : ℚ)/2 by norm_num]
    rw [show ⌊(3 : ℚ)/2⌋ = 1 by norm_num]
    rfl
  have h1 : sample_count_of 15 (1/200) = 1 := by
    unfold sample_count_of
    rw [hr1]
    rw [show ((15 : ℕ) : ℚ) * (1/100) = (3 : ℚ)/20 by norm_num]
    rw [show ⌊(3 : ℚ)/20⌋ = 0 by norm_num]
    rfl
  exact ⟨h0, h1, by rw [h0, h1]; norm_num⟩

/-- Claim C9 as amended: a ratio of exactly 0 is replaced by the default 0.1
before clamping while any other below-range ratio is clamped up to 0.01, so
the EFFECTIVE ratio for 0 is ten times the one for 0.005; the realized sample
counts `max(1, floor(totalFrames*ratio))` are only approximately tenfold. -/
theorem C9_ratio_default_amended :
    ratioUsed 0 = 1/10
    ∧ (∀ r : ℚ, r ≠ 0 → r ≤ 1/100 → ratioUsed r = 1/100)
    ∧ ratioUsed 0 = 10 * ratioUsed (1/200) := by
  have hr0 : ratioUsed 0 = 1/10 := by
    unfold ratioUsed clamp
    rw [if_pos rfl, min_eq_right (by norm_num), max_eq_right (by norm_num)]
  refine ⟨hr0, ?_, ?_⟩
  · intro r hr hle
    unfold ratioUsed clamp
    rw [if_neg hr, min_eq_right (le_trans hle (by norm_num)), max_eq_left hle]
  · have hr1 : ratioUsed (1/200) = 1/100 := by
      unfold ratioUsed clamp
      rw [if_neg (by norm_num), min_eq_right (by norm_num), max_eq_left (by norm_num)]
    rw [hr0, hr1]
    norm_num

/-- Witness for the amended C9 at the below-range ratio 0.005. -/
theorem C9_ratio_witness : ratioUsed (1/200) = 1/100 :=
  C9_ratio_default_amended.2.1 (1/200) (by norm_num) (by norm_num)

/-- Claim C10: after every number of loop iterations, the motion values and
motion timestamps have length equal to the sampled-frame counter, and the
timestamps are strictly increasing — in particular duplicate-free, so the
peak detector never sees duplicate timestamps. -/
theorem C10_parallel_lengths_strict_timestamps (Gray : Type) (env : Env Gray) (k : ℕ) :
    (scanStateFuel env k).motion_values.length = (scanStateFuel env k).sampled_frames
    ∧ (scanStateFuel env k).motion_timestamps.length = (scanStateFuel env k).sampled_frames
    ∧ List.Pairwise (· < ·) (scanStateFuel env k).motion_timestamps
    ∧ (scanStateFuel env k).motion_timestamps.Nodup := by
  obtain ⟨h1, h2, h3⟩ := scanFrames_trace env.diffMean env.bandDiffMean env.decoder
    (total_frames_nat env) (sample_stride_of (total_frames_nat env) env.sample_ratio_arg)
    (fpsUsed env) k 0 initState
  simp only [show (initState : ScanState Gray).sampled_frames = 0 from rfl,
    show (initState : ScanState Gray).motion_values = [] from rfl,
    show (initState : ScanState Gray).motion_timestamps = [] from rfl,
    List.length_nil, List.nil_append, Nat.zero_add] at h1 h2 h3
  have hstride : 0 < sample_stride_of (total_frames_nat env) env.sample_ratio_arg :=
    lt_of_lt_of_le Nat.one_pos (le_max_left 1 _)
  have hsortidx := decodedIndices_sorted env.decoder (total_frames_nat env)
    (sample_stride_of (total_frames_nat env) env.sample_ratio_arg) hstride k 0
  have hd : (0 : ℚ) < max 1 (fpsUsed env) := lt_of_lt_of_le one_pos (le_max_left 1 _)
  have hmono : ∀ a b : ℕ, a < b →
      (a : ℚ) / max 1 (fpsUsed env) < (b : ℚ) / max 1 (fpsUsed env) := by
    intro a b hab
    rw [div_eq_mul_inv, div_eq_mul_inv]
    exact mul_lt_mul_of_pos_right (by exact_mod_cast hab) (inv_pos.mpr hd)
  have hmapped : List.Pairwise (· < ·)
      ((decodedIndices env.decoder (total_frames_nat env)
        (sample_stride_of (total_frames_nat env) env.sample_ratio_arg) k 0).map
          (fun j : ℕ => (j : ℚ) / max 1 (fpsUsed env))) := by
    rw [List.pairwise_map]
    exact hsortidx.imp (fun hab => hmono _ _ hab)
  simp only [scanStateFuel]
  rw [h1, h2, h3]
  exact ⟨rfl, by rw [List.length_map], hmapped, hmapped.imp (fun hab => ne_of_lt hab)⟩

lemma scanStateOf_lengths (Gray : Type) (env : Env Gray) :
    (scanStateOf env).motion_values.length = (scanStateOf env).sampled_frames
    ∧ (scanStateOf env).motion_timestamps.length = (scanStateOf env).sampled_frames := by
  obtain ⟨t1, t2, t3⟩ := scanFrames_trace env.diffMean env.bandDiffMean env.decoder
    (total_frames_nat env) (sample_stride_of (total_frames_nat env) env.sample_ratio_arg)
    (fpsUsed env) (total_frames_nat env) 0 initState
  simp only [show (initState : ScanState Gray).sampled_frames = 0 from rfl,
    show (initState : ScanState Gray).motion_values = [] from rfl,
    show (initState : ScanState Gray).motion_timestamps = [] from rfl,
    List.length_nil, List.nil_append, Nat.zero_add] at t1 t2 t3
  constructor
  · show (scanFrames env.diffMean env.bandDiffMean env.decoder (total_frames_nat env)
      (sample_stride_of (total_frames_nat env) env.sample_ratio_arg) (fpsUsed env)
      (total_frames_nat env) 0 initState).motion_values.length
      = (scanFrames env.diffMean env.bandDiffMean env.decoder (total_frames_nat env)
        (sample_stride_of (total_frames_nat env) env.sample_ratio_arg) (fpsUsed env)
        (total_frames_nat env) 0 initState).sampled_frames
    rw [t2, t1]
  · show (scanFrames env.diffMean env.bandDiffMean env.decoder (total_frames_nat env)
      (sample_stride_of (total_frames_nat env) env.sample_ratio_arg) (fpsUsed env)
      (total_frames_nat env) 0 initState).motion_timestamps.length
      = (scanFrames env.diffMean env.bandDiffMean env.decoder (total_frames_nat env)
        (sample_stride_of (total_frames_nat env) env.sample_ratio_arg) (fpsUsed env)
        (total_frames_nat env) 0 initState).sampled_frames
    rw [t3, t1, List.length_map]

/-- Claim C4 as amended: for a zero-motion source (all pixel diffs zero) on
the normal path, the motion mean, variance (hence std and threshold) are 0,
no value is strictly greater than the threshold, so the high-motion ratio and
highMotionShortClipSignal are 0 — but motionPeaks is NOT empty, because peak
candidacy uses `value >= threshold` and `0 >= 0` holds for every sampled
frame. -/
theorem C4_zero_motion_amended (Gray : Type) (env : Env Gray)
    (hdm : ∀ g1 g2, env.diffMean g1 g2 = 0)
    (h1 : env.path_exists = true) (h2 : env.imports_ok = true) (h3 : env.cap_opened = true)
    (h4 : ¬(env.total_frames_raw ≤ 0 ∨ env.width ≤ 0 ∨ env.height ≤ 0))
    (h5 : ¬((scanStateOf env).sampled_frames = 0)) :
    listMean (motionArrayOf (scanStateOf env).motion_values) = 0
    ∧ listVar (motionArrayOf (scanStateOf env).motion_values) = 0
    ∧ (main env).2.highMotionShortClipSignal = 0
    ∧ (main env).2.motionPeaks ≠ [] := by
  have hz : ∀ v ∈ (scanStateOf env).motion_values, v = 0 :=
    scanFrames_motion_zero env.diffMean env.bandDiffMean hdm env.decoder
      (total_frames_nat env) (sample_stride_of (total_frames_nat env) env.sample_ratio_arg)
      (fpsUsed env) (total_frames_nat env) 0 initState
      (by intro v hv; simp [initState] at hv)
  obtain ⟨hval_len, hts_len⟩ := scanStateOf_lengths Gray env
  have hne : (scanStateOf env).motion_values ≠ [] := by
    intro hcon
    apply h5
    rw [← hval_len, hcon]
    rfl
  have hmain : (main env).2 = buildResult
      (sample_stride_of (total_frames_nat env) env.sample_ratio_arg) (scanStateOf env) := by
    unfold main
    rw [if_neg (by simp [h1]), if_neg (by simp [h2]), if_neg (by simp [h3]),
      if_neg h4, if_neg h5]
  obtain ⟨hb1, hb2⟩ := buildResult_zero_motion
    (sample_stride_of (total_frames_nat env) env.sample_ratio_arg) (scanStateOf env)
    hz hne (hts_len.trans hval_len.symm)
  exact ⟨listMean_zero _ (motionArrayOf_zero _ hz),
    listVar_zero _ (motionArrayOf_zero _ hz),
    by rw [hmain]; exact hb1,
    by rw [hmain]; exact hb2⟩

lemma ratioUsed_half : ratioUsed (1/2) = 1/2 := by
  unfold ratioUsed clamp
  rw [if_neg (by norm_num), min_eq_right (by norm_num), max_eq_right (by norm_num)]

lemma ratioUsed_fifth : ratioUsed (1/5) = 1/5 := by
  unfold ratioUsed clamp
  rw [if_neg (by norm_num), min_eq_right (by norm_num), max_eq_right (by norm_num)]

lemma envA_count : sample_count_of 1 (1/2) = 1 := by
  unfold sample_count_of
  rw [ratioUsed_half]
  rw [show ((1 : ℕ) : ℚ) * (1/2) = (1 : ℚ)/2 by norm_num]
  rw [show ⌊(1 : ℚ)/2⌋ = 0 by norm_num]
  rfl

lemma envA_stride : sample_stride_of 1 (1/2) = 1 := by
  unfold sample_stride_of
  rw [envA_count]
  rfl

lemma envA_fps : fpsUsed (mkEnv 1 (1/2) 1) = 1 := by
  simp only [fpsUsed, mkEnv]
  norm_num

/-- Full evaluation of the scan loop on a 1-frame static source. -/
lemma envA_state : scanStateOf (mkEnv 1 (1/2) 1) =
    { sampled_frames := 1
      portrait_score_total := 19/50
      landscape_score_total := 13/100
      centered_face_total := 0
      horizontal_motion_total := 0
      motion_values := [0]
      motion_timestamps := [0]
      prev_gray := some () } := by
  have h0 : scanStateOf (mkEnv 1 (1/2) 1)
      = scanFrames dzero dzero dall 1 (sample_stride_of 1 (1/2))
          (fpsUsed (mkEnv 1 (1/2) 1)) 1 0 initState := rfl
  rw [h0, envA_stride, envA_fps]
  show scanFrames dzero dzero dall 1 1 1 (0 + 1) 0 initState = _
  rw [scanFrames_step dzero dzero dall 1 1 1 0 0 initState frame0 (by norm_num) rfl]
  show scanFrames dzero dzero dall 1 1 1 0 1 _ = _
  rw [scanFrames_stop dzero dzero dall 1 1 1 0 1 _ (by norm_num)]
  simp only [stepFrame, initState, frame0, centered_face_score, portrait_score,
    landscape_score, portrait_bias, landscape_bias]
  norm_num

lemma envA_result : (main (mkEnv 1 (1/2) 1)).2 = buildResult 1
    { sampled_frames := 1
      portrait_score_total := 19/50
      landscape_score_total := 13/100
      centered_face_total := 0
      horizontal_motion_total := 0
      motion_values := [0]
      motion_timestamps := [0]
      prev_gray := some () } := by
  unfold main
  rw [if_neg (by simp [mkEnv]), if_neg (by simp [mkEnv]), if_neg (by simp [mkEnv]),
    if_neg (by norm_num [mkEnv]), if_neg (by rw [envA_state]; norm_num)]
  show buildResult (sample_stride_of 1 (1/2)) (scanStateOf (mkEnv 1 (1/2) 1)) = _
  rw [envA_stride, envA_state]

lemma envA_peaks : (main (mkEnv 1 (1/2) 1)).2.motionPeaks = [0] := by
  rw [envA_result]
  show ((dedupPeaks (sortByValueDesc (peakCandidates [0] [0]
    (listMean (motionArrayOf [0])) (listVar (motionArrayOf [0])))) []).map (roundTo 100)) = [0]
  have harr : motionArrayOf [0] = [0] := by norm_num [motionArrayOf]
  have hmean0 : listMean [(0:ℚ)] = 0 := by norm_num [listMean]
  have hvar0 : listVar [(0:ℚ)] = 0 := by
    rw [listVar]
    simp only [hmean0]
    norm_num [listMean]
  have hmean : listMean (motionArrayOf [0]) = 0 := by rw [harr]; exact hmean0
  have hvar : listVar (motionArrayOf [0]) = 0 := by rw [harr]; exact hvar0
  rw [hmean, hvar]
  have hcand : peakCandidates [0] [0] 0 0 = [(0, 0)] := by
    norm_num [peakCandidates, geThreshold, List.zip]
  rw [hcand]
  rw [show sortByValueDesc [((0:ℚ), (0:ℚ))] = [(0, 0)] from rfl]
  rw [show dedupPeaks [((0:ℚ), (0:ℚ))] [] = [0] from by
    rw [dedupPeaks]
    simp only [List.any_nil, List.nil_append]
    rw [if_neg (by simp), if_neg (by norm_num), dedupPeaks]]
  rw [List.map_singleton, roundTo_zero]

lemma envA_short : (main (mkEnv 1 (1/2) 1)).2.highMotionShortClipSignal = 0 := by
  rw [envA_result]
  show roundTo 10000 (clamp ((if 0 < (motionArrayOf [0]).length then
      (((motionArrayOf [(0:ℚ)]).countP (fun v =>
          gtThreshold v (listMean (motionArrayOf [0])) (listVar (motionArrayOf [0])))) : ℚ)
        / ((motionArrayOf [(0:ℚ)]).length : ℚ)
      else 0) * (135/100)) 0 1) = 0
  have harr : motionArrayOf [(0:ℚ)] = [0] := by norm_num [motionArrayOf]
  have hmean0 : listMean [(0:ℚ)] = 0 := by norm_num [listMean]
  have hvar0 : listVar [(0:ℚ)] = 0 := by
    rw [listVar]
    simp only [hmean0]
    norm_num [listMean]
  have hmean : listMean (motionArrayOf [(0:ℚ)]) = 0 := by rw [harr]; exact hmean0
  have hvar : listVar (motionArrayOf [(0:ℚ)]) = 0 := by rw [harr]; exact hvar0
  rw [hmean, hvar, harr]
  have hcount : List.countP (fun v => gtThreshold v 0 0) [(0:ℚ)] = 0 := by
    rw [List.countP_eq_zero]
    intro a ha
    rw [List.mem_singleton] at ha
    subst ha
    norm_num [gtThreshold]
  rw [hcount]
  norm_num [clamp, roundTo_zero]

/-- Claim C4 counterexample: on a concrete 1-frame static (zero-motion)
source, all motion values are 0 and highMotionShortClipSignal is 0 as the
claim says, but motionPeaks is `[0.0]`, not the empty sequence. -/
theorem C4_zero_motion_counterexample :
    (scanStateOf (mkEnv 1 (1/2) 1)).motion_values = [0]
    ∧ (main (mkEnv 1 (1/2) 1)).2.highMotionShortClipSignal = 0
    ∧ (main (mkEnv 1 (1/2) 1)).2.motionPeaks = [0]
    ∧ (main (mkEnv 1 (1/2) 1)).2.motionPeaks ≠ [] := by
  refine ⟨by rw [envA_state], envA_short, envA_peaks, ?_⟩
  rw [envA_peaks]
  simp

/-- Witness for the amended C4 at the concrete 1-frame static source. -/
theorem C4_zero_motion_witness :
    listMean (motionArrayOf (scanStateOf (mkEnv 1 (1/2) 1)).motion_values) = 0
    ∧ (main (mkEnv 1 (1/2) 1)).2.motionPeaks ≠ [] :=
  ⟨(C4_zero_motion_amended Unit (mkEnv 1 (1/2) 1) (fun _ _ => rfl) rfl rfl rfl
      (by norm_num [mkEnv]) (by rw [envA_state]; norm_num)).1,
    (C4_zero_motion_amended Unit (mkEnv 1 (1/2) 1) (fun _ _ => rfl) rfl rfl rfl
      (by norm_num [mkEnv]) (by rw [envA_state]; norm_num)).2.2.2⟩

lemma envB_count : sample_count_of 10 (1/5) = 2 := by
  unfold sample_count_of
  rw [ratioUsed_fifth]
  rw [show ((10 : ℕ) : ℚ) * (1/5) = (2 : ℚ) by norm_num]
  rw [show ⌊(2 : ℚ)⌋ = 2 by norm_num]
  rfl

lemma envB_stride : sample_stride_of 10 (1/5) = 5 := by
  unfold sample_stride_of
  rw [envB_count]
  rfl

lemma envB_fps : fpsUsed (mkEnv 10 (1/5) 1) = 1 := by
  simp only [fpsUsed, mkEnv]
  norm_num

/-- Full evaluation of the scan loop on a 10-frame static source sampled at
stride 5: two sampled frames, at timestamps 0 and 5 seconds. -/
lemma envB_state : scanStateOf (mkEnv 10 (1/5) 1) =
    { sampled_frames := 2
      portrait_score_total := 19/25
      landscape_score_total := 13/50
      centered_face_total := 0
      horizontal_motion_total := 0
      motion_values := [0, 0]
      motion_timestamps := [0, 5]
      prev_gray := some () } := by
  have h0 : scanStateOf (mkEnv 10 (1/5) 1)
      = scanFrames dzero dzero dall 10 (sample_stride_of 10 (1/5))
          (fpsUsed (mkEnv 10 (1/5) 1)) 10 0 initState := rfl
  rw [h0, envB_stride, envB_fps]
  show scanFrames dzero dzero dall 10 5 1 (9 + 1) 0 initState = _
  rw [scanFrames_step dzero dzero dall 10 5 1 9 0 initState frame0 (by norm_num) rfl]
  show scanFrames dzero dzero dall 10 5 1 (8 + 1) 5 _ = _
  rw [scanFrames_step dzero dzero dall 10 5 1 8 5 _ frame0 (by norm_num) rfl]
  rw [scanFrames_stop dzero dzero dall 10 5 1 8 10 _ (by norm_num)]
  simp only [stepFrame, initState, frame0, dzero, centered_face_score, portrait_score,
    landscape_score, portrait_bias, landscape_bias]
  norm_num

lemma envB_result : (main (mkEnv 10 (1/5) 1)).2 = buildResult 5
    { sampled_frames := 2
      portrait_score_total := 19/25
      landscape_score_total := 13/50
      centered_face_total := 0
      horizontal_motion_total := 0
      motion_values := [0, 0]
      motion_timestamps := [0, 5]
      prev_gray := some () } := by
  unfold main
  rw [if_neg (by simp [mkEnv]), if_neg (by simp [mkEnv]), if_neg (by simp [mkEnv]),
    if_neg (by norm_num [mkEnv]), if_neg (by rw [envB_state]; norm_num)]
  show buildResult (sample_stride_of 10 (1/5)) (scanStateOf (mkEnv 10 (1/5) 1)) = _
  rw [envB_stride, envB_state]

lemma roundTo_hundred_five : roundTo 100 5 = 5 := by
  unfold roundTo roundHalfEven
  norm_num

lemma envB_peaks : (main (mkEnv 10 (1/5) 1)).2.motionPeaks = [0, 5] := by
  rw [envB_result]
  show ((dedupPeaks (sortByValueDesc (peakCandidates [0, 5] [0, 0]
    (listMean (motionArrayOf [0, 0])) (listVar (motionArrayOf [0, 0])))) []).map
      (roundTo 100)) = [0, 5]
  have harr : motionArrayOf [(0:ℚ), 0] = [0, 0] := by norm_num [motionArrayOf]
  have hmean0 : listMean [(0:ℚ), 0] = 0 := by norm_num [listMean]
  have hvar0 : listVar [(0:ℚ), 0] = 0 := by
    rw [listVar]
    simp only [hmean0]
    norm_num [listMean]
  have hmean : listMean (motionArrayOf [(0:ℚ), 0]) = 0 := by rw [harr]; exact hmean0
  have hvar : listVar (motionArrayOf [(0:ℚ), 0]) = 0 := by rw [harr]; exact hvar0
  rw [hmean, hvar]
  have hge : geThreshold 0 0 0 = true := by norm_num [geThreshold]
  have hcand : peakCandidates [(0:ℚ), 5] [(0:ℚ), 0] 0 0 = [(0, 0), (5, 0)] := by
    unfold peakCandidates
    rw [show List.zip [(0:ℚ), 5] [(0:ℚ), 0] = [(0, 0), (5, 0)] from rfl]
    rw [List.filter_cons, List.filter_cons, List.filter_nil]
    simp [hge]
  rw [hcand]
  have hsort : sortByValueDesc [((0:ℚ), (0:ℚ)), (5, 0)] = [(0, 0), (5, 0)] := by
    norm_num [sortByValueDesc, insertByValueDesc]
  rw [hsort]
  have habs5 : |(5:ℚ) - 0| = 5 := by
    rw [show (5:ℚ) - 0 = 5 from by norm_num]
    exact abs_of_nonneg (by norm_num)
  have hany : List.any [(0:ℚ)] (fun e => decide (|(5:ℚ) - e| < 9/2)) = false := by
    simp only [List.any_cons, List.any_nil, Bool.or_false]
    rw [decide_eq_false]
    rw [habs5]
    norm_num
  have hded : dedupPeaks [((0:ℚ), (0:ℚ)), (5, 0)] [] = [0, 5] := by
    rw [dedupPeaks]
    simp only [List.any_nil, List.nil_append]
    rw [if_neg (by simp), if_neg (by norm_num)]
    rw [dedupPeaks]
    simp only [show ((5:ℚ), (0:ℚ)).1 = 5 from rfl, hany]
    rw [if_neg (by simp), if_neg (by norm_num)]
    rw [dedupPeaks]
    rfl
  rw [hded]
  rw [List.map_cons, List.map_cons, List.map_nil, roundTo_zero, roundTo_hundred_five]

/-- Witness for C3 at a concrete two-peak run: the two returned peaks `0.0`
and `5.0` are at least 4.5 seconds apart. -/
theorem C3_peaks_witness :
    9/2 ≤ |(main (mkEnv 10 (1/5) 1)).2.motionPeaks.get ⟨0, by rw [envB_peaks]; norm_num⟩
      - (main (mkEnv 10 (1/5) 1)).2.motionPeaks.get ⟨1, by rw [envB_peaks]; norm_num⟩| :=
  (C3_motion_peaks_bounded_rounded_separated Unit (mkEnv 10 (1/5) 1)).2.2 0 1 _ _
    (by norm_num)

lemma envC_count : sample_count_of 4 (1/2) = 2 := by
  unfold sample_count_of
  rw [ratioUsed_half]
  rw [show ((4 : ℕ) : ℚ) * (1/2) = (2 : ℚ) by norm_num]
  rw [show ⌊(2 : ℚ)⌋ = 2 by norm_num]
  rfl

lemma envC_stride : sample_stride_of 4 (1/2) = 2 := by
  unfold sample_stride_of
  rw [envC_count]
  rfl

lemma envC_fps : fpsUsed (mkEnv 4 (1/2) (1/2)) = 1/2 := by
  simp only [fpsUsed, mkEnv]
  norm_num

/-- On a source reporting `fps = 0.5`, the recorded timestamps divide the
frame index by `max(1.0, fps) = 1`, so frame 2 gets timestamp 2, not 4. -/
lemma envC_ts : (scanStateOf (mkEnv 4 (1/2) (1/2))).motion_timestamps = [0, 2] := by
  have h0 : scanStateOf (mkEnv 4 (1/2) (1/2))
      = scanFrames dzero dzero dall 4 (sample_stride_of 4 (1/2))
          (fpsUsed (mkEnv 4 (1/2) (1/2))) 4 0 initState := rfl
  rw [h0, envC_stride, envC_fps]
  show (scanFrames dzero dzero dall 4 2 (1/2) (3 + 1) 0 initState).motion_timestamps = _
  rw [scanFrames_step dzero dzero dall 4 2 (1/2) 3 0 initState frame0 (by norm_num) rfl]
  show (scanFrames dzero dzero dall 4 2 (1/2) (2 + 1) 2 _).motion_timestamps = _
  rw [scanFrames_step dzero dzero dall 4 2 (1/2) 2 2 _ frame0 (by norm_num) rfl]
  rw [scanFrames_stop dzero dzero dall 4 2 (1/2) 2 4 _ (by norm_num)]
  have hmax : max (1:ℚ) (1/2) = 1 := max_eq_left (by norm_num)
  simp only [stepFrame, initState, frame0, dzero, hmax]
  norm_num

/-- Claim C6 counterexample: with a source fps of 0.5 (between 0 and 1), the
sampled frame at index 2 is recorded with timestamp 2 — the code divides by
`max(1.0, fps)` — whereas the claim's `frameIndex / fps` would give 4. -/
theorem C6_timestamp_counterexample :
    (mkEnv 4 (1/2) (1/2) : Env Unit).fps_raw = 1/2
    ∧ (scanStateOf (mkEnv 4 (1/2) (1/2))).motion_timestamps = [0, 2]
    ∧ (2 : ℚ) / (mkEnv 4 (1/2) (1/2) : Env Unit).fps_raw = 4
    ∧ (2 : ℚ) ≠ 4
    ∧ (scanStateOf (mkEnv 4 (1/2) (1/2))).motion_timestamps
        ≠ [0 / (mkEnv 4 (1/2) (1/2) : Env Unit).fps_raw,
            2 / (mkEnv 4 (1/2) (1/2) : Env Unit).fps_raw] := by
  refine ⟨rfl, envC_ts, ?_, by norm_num, ?_⟩
  · show (2 : ℚ) / (1/2) = 4
    norm_num
  · rw [envC_ts]
    show [(0 : ℚ), 2] ≠ [0 / (1/2), 2 / (1/2)]
    norm_num

/-- Claim C6 as amended: every recorded timestamp equals
`frameIndex / max(1.0, fps)` — which agrees with `frameIndex / fps` whenever
`fps ≥ 1`, but clamps the divisor to 1 for fps values below 1. -/
theorem C6_timestamps_amended (Gray : Type) (env : Env Gray) :
    (scanStateOf env).motion_timestamps =
      (decodedIndices env.decoder (total_frames_nat env)
          (sample_stride_of (total_frames_nat env) env.sample_ratio_arg)
          (total_frames_nat env) 0).map
        (fun j : ℕ => (j : ℚ) / max 1 (fpsUsed env))
    ∧ (1 ≤ fpsUsed env → ∀ j : ℕ, (j : ℚ) / max 1 (fpsUsed env) = (j : ℚ) / fpsUsed env) := by
  constructor
  · have h := (scanFrames_trace env.diffMean env.bandDiffMean env.decoder
      (total_frames_nat env) (sample_stride_of (total_frames_nat env) env.sample_ratio_arg)
      (fpsUsed env) (total_frames_nat env) 0 initState).2.2
    simp only [show (initState : ScanState Gray).motion_timestamps = [] from rfl,
      List.nil_append] at h
    exact h
  · intro hf j
    rw [max_eq_right hf]

/-- Witness for the amended C6 at a concrete source with fps 1 (≥ 1). -/
theorem C6_timestamps_witness :
    ((scanStateOf (mkEnv 1 (1/2) 1)).motion_timestamps =
      (decodedIndices (mkEnv 1 (1/2) 1).decoder (total_frames_nat (mkEnv 1 (1/2) 1))
          (sample_stride_of (total_frames_nat (mkEnv 1 (1/2) 1))
            (mkEnv 1 (1/2) 1).sample_ratio_arg)
          (total_frames_nat (mkEnv 1 (1/2) 1)) 0).map
        (fun j : ℕ => (j : ℚ) / max 1 (fpsUsed (mkEnv 1 (1/2) 1))))
    ∧ ((2 : ℕ) : ℚ) / max 1 (fpsUsed (mkEnv 1 (1/2) 1))
        = ((2 : ℕ) : ℚ) / fpsUsed (mkEnv 1 (1/2) 1) :=
  ⟨(C6_timestamps_amended Unit (mkEnv 1 (1/2) 1)).1,
    (C6_timestamps_amended Unit (mkEnv 1 (1/2) 1)).2 (by rw [envA_fps]) 2⟩

end FrameScanner
